import Mathlib

set_option maxHeartbeats 1000000
set_option autoImplicit false

/-!
Shallow embedding of the Parietal MSM pipeline.

Embedded source:
* `prepare_darrays` and `is_same_coordsys` from `src/smoothness_optimization.py`
  (the identical functions are imported as `msm.run.prepare_darrays` in
  `src/msm/model.py`);
* `MSMModel.fit`, `MSMModel.transform`, `MSMModel.score` from `src/msm/model.py`;
* `run_msm` is modelled from the spec (its module is not under `src/`).

Modelling conventions:
* numpy arrays become `NDArray` (a dtype tag plus rational scalar contents);
  the float32 rounding applied by `astype(np.float32)` to a non-float32 array
  is an explicit parameter `c32 : Rat → Rat` of every function that uses it,
  and `astype` of an array already tagged float32 keeps its values, as numpy does;
* Python exceptions become the `PipelineError` type: `coordinateSystemMismatch`
  is the `ValueError("Provided data is in different coordsys than the mesh.")`
  raised by `prepare_darrays`, `externalToolFailure` the
  `RuntimeError("Failed to run MSM with command:\n...")` raised on a nonzero
  exit status, `outputNotFound` the loader error (`FileNotFoundError`) that
  `nib.load` raises when the declared output file is absent, and
  `attributeError` / `indexError` the corresponding Python exceptions;
* the in-place mutation performed by `prepare_darrays` is modelled by
  `prepare_run`, which returns the state of the list at the moment the
  function returns or raises, together with the raised error if any;
* files on disk are a list of (path, image) pairs; a path is a pair of a
  directory and a file name, mirroring the `Path(dir_name) / name`
  constructions in the source (all files sit directly in one directory);
* each external `os.system` call and each `to_filename` write is recorded in
  an event trace, and the exit status / files produced by the external binary
  are inputs (`MsmWorld`, `ResampleWorld`), since the binary is a black box.
-/

/-- Numeric dtype tag of an in-memory numpy array. -/
inductive DType
  | float32
  | float64
  | int32
deriving DecidableEq, Repr

/-- Model of a numpy ndarray: a dtype tag plus its scalar contents
    (scalars are modelled as rationals). -/
structure NDArray where
  dtype : DType
  vals : List Rat
deriving DecidableEq, Repr

/-- GIFTI coordinate-system descriptor: `dataspace` and `xformspace` codes plus
    the affine transform matrix (a list of rows). -/
structure Coordsys where
  dataspace : Nat
  xformspace : Nat
  xform : List (List Rat)
deriving DecidableEq, Repr

/-- One GIFTI data array (`nib.gifti.GiftiDataArray`): scalar data plus the
    `datatype`, `intent` and optional `coordsys` metadata mutated by
    `prepare_darrays`. -/
structure DArray where
  data : NDArray
  datatype : Nat
  intent : Nat
  coordsys : Option Coordsys
deriving DecidableEq, Repr

/-- GIFTI image (`nib.gifti.GiftiImage`): a list of data arrays. -/
structure GiftiImage where
  darrays : List DArray
deriving DecidableEq, Repr

/-- nibabel's code for `NIFTI_TYPE_FLOAT32`. -/
def NIFTI_TYPE_FLOAT32 : Nat := 16

/-- nibabel's code for `NIFTI_INTENT_POINTSET`. -/
def NIFTI_INTENT_POINTSET : Nat := 1008

/-- Errors raised by the pipeline; see the module docstring for the mapping
    from Python exception to constructor. -/
inductive PipelineError
  | coordinateSystemMismatch (msg : String)
  | externalToolFailure (msg : String)
  | outputNotFound (path : String)
  | attributeError
  | indexError
deriving DecidableEq, Repr

/-- Recognizer for the `coordinateSystemMismatch` constructor. -/
def PipelineError.isCoordsysMismatch : PipelineError → Bool
  | .coordinateSystemMismatch _ => true
  | _ => false

/-- Message of the `ValueError` raised by `prepare_darrays`. -/
def mismatch_msg : String := "Provided data is in different coordsys than the mesh."

/-- Source: `is_same_coordsys(c1, c2)` in `src/smoothness_optimization.py`:
    compares `dataspace`, `xformspace` and (via `np.all(c1.xform == c2.xform)`)
    the transform matrices, all by exact equality. -/
def is_same_coordsys (c1 c2 : Coordsys) : Bool :=
  c1.dataspace == c2.dataspace && c1.xformspace == c2.xformspace
    && c1.xform == c2.xform

/-- Model of `d.data.astype(np.float32)`: the result is tagged float32; an
    array already tagged float32 keeps its values, otherwise each value is
    rounded by `c32`. -/
def astype32 (c32 : Rat → Rat) (a : NDArray) : NDArray :=
  { dtype := DType.float32,
    vals := if a.dtype = DType.float32 then a.vals else a.vals.map c32 }

/-- The three assignments `prepare_darrays` performs on an element before the
    coordsys check: `d.data = d.data.astype(np.float32)`,
    `d.datatype = FLOAT32 code`, `d.intent = POINTSET code`. -/
def coerce_fields (c32 : Rat → Rat) (d : DArray) : DArray :=
  { d with
    data := astype32 c32 d.data,
    datatype := NIFTI_TYPE_FLOAT32,
    intent := NIFTI_INTENT_POINTSET }

/-- The coordsys guard of `prepare_darrays`:
    `if d.coordsys is not None and not is_same_coordsys(d.coordsys, coordsys)`
    raises the ValueError; comparing a present coordsys against a `None`
    target dereferences `None.dataspace` inside `is_same_coordsys`, which in
    Python is an `AttributeError`. Returns the raised error, if any. -/
def coordsys_check (target : Option Coordsys) (d : DArray) : Option PipelineError :=
  match d.coordsys, target with
  | some c, some t =>
    if is_same_coordsys c t then none
    else some (.coordinateSystemMismatch mismatch_msg)
  | some _, none => some .attributeError
  | none, _ => none

/-- The fully processed form of one element on the success path of the loop
    body: fields coerced and `d.coordsys = coordsys` assigned. -/
def prep_elem (c32 : Rat → Rat) (target : Option Coordsys) (d : DArray) : DArray :=
  { coerce_fields c32 d with coordsys := target }

/-- Source: the loop of `prepare_darrays(darrays, coordsys)` in
    `src/smoothness_optimization.py`, as a state-passing function: the first
    component is the state of the (in Python, in-place mutated) list when the
    function returns or raises — elements before a failing one are fully
    processed, the failing element has had its `data`, `datatype` and `intent`
    assigned but not its `coordsys`, later elements are untouched — and the
    second component is the raised error, if any. -/
def prepare_run (c32 : Rat → Rat) (target : Option Coordsys) :
    List DArray → List DArray × Option PipelineError
  | [] => ([], none)
  | d :: ds =>
    let d1 := coerce_fields c32 d
    match coordsys_check target d with
    | some e => (d1 :: ds, some e)
    | none =>
      let r := prepare_run c32 target ds
      (prep_elem c32 target d :: r.1, r.2)

/-- Source: `prepare_darrays(darrays, coordsys)` as a function from the input
    list to the returned list or the raised error. Defined over `prepare_run`
    so that the returned list is exactly the mutated state on success. -/
def prepare_darrays (c32 : Rat → Rat) (darrays : List DArray)
    (coordsys : Option Coordsys) : Except PipelineError (List DArray) :=
  match prepare_run c32 coordsys darrays with
  | (l, none) => .ok l
  | (_, some e) => .error e

theorem is_same_coordsys_self (c : Coordsys) : is_same_coordsys c c = true := by
  simp [is_same_coordsys]

theorem astype32_dtype (c32 : Rat → Rat) (a : NDArray) :
    (astype32 c32 a).dtype = DType.float32 := rfl

theorem astype32_idem (c32 : Rat → Rat) (a : NDArray) :
    astype32 c32 (astype32 c32 a) = astype32 c32 a := by
  simp [astype32]

theorem coerce_fields_coordsys (c32 : Rat → Rat) (d : DArray) :
    (coerce_fields c32 d).coordsys = d.coordsys := rfl

theorem coerce_fields_idem (c32 : Rat → Rat) (d : DArray) :
    coerce_fields c32 (coerce_fields c32 d) = coerce_fields c32 d := by
  simp [coerce_fields, astype32_idem]

theorem coordsys_check_prep_elem (c32 : Rat → Rat) (t : Option Coordsys) (d : DArray) :
    coordsys_check t (prep_elem c32 t d) = none := by
  cases t <;> simp [coordsys_check, prep_elem, is_same_coordsys_self]

theorem prep_elem_idem (c32 : Rat → Rat) (t : Option Coordsys) (d : DArray) :
    prep_elem c32 t (prep_elem c32 t d) = prep_elem c32 t d := by
  simp only [prep_elem]
  have h : coerce_fields c32 { coerce_fields c32 d with coordsys := t }
      = { coerce_fields c32 (coerce_fields c32 d) with coordsys := t } := rfl
  rw [h, coerce_fields_idem]

/-- On success, the returned list is the map of `prep_elem` over the input and
    every element passed the coordsys check. -/
theorem prepare_run_ok (c32 : Rat → Rat) (t : Option Coordsys) :
    ∀ ds out, prepare_run c32 t ds = (out, none) →
      out = ds.map (prep_elem c32 t) ∧ ∀ d ∈ ds, coordsys_check t d = none := by
  intro ds
  induction ds with
  | nil => intro out h; simp [prepare_run] at h; subst h; simp
  | cons d ds ih =>
    intro out h
    simp only [prepare_run] at h
    cases hc : coordsys_check t d with
    | some e => rw [hc] at h; simp at h
    | none =>
      rw [hc] at h
      simp only at h
      have ho : out = prep_elem c32 t d :: (prepare_run c32 t ds).1 := by
        have := congrArg Prod.fst h
        simpa using this.symm
      have he : (prepare_run c32 t ds).2 = none := by
        have := congrArg Prod.snd h
        simpa using this
      have hds := ih (prepare_run c32 t ds).1 (by rw [← he])
      refine ⟨by rw [ho, hds.1, List.map_cons], ?_⟩
      intro x hx
      rcases List.mem_cons.mp hx with hx | hx
      · rw [hx]; exact hc
      · exact hds.2 x hx

theorem prepare_run_all_pass (c32 : Rat → Rat) (t : Option Coordsys) :
    ∀ ds, (∀ d ∈ ds, coordsys_check t d = none) →
      prepare_run c32 t ds = (ds.map (prep_elem c32 t), none) := by
  intro ds
  induction ds with
  | nil => intro _; rfl
  | cons d ds ih =>
    intro h
    have hd : coordsys_check t d = none := h d (List.mem_cons_self d ds)
    simp only [prepare_run, hd, List.map_cons]
    rw [ih (fun x hx => h x (List.mem_cons_of_mem d hx))]

theorem coordsys_check_some (cs : Coordsys) (d : DArray) (e : PipelineError)
    (h : coordsys_check (some cs) d = some e) :
    e = .coordinateSystemMismatch mismatch_msg := by
  cases hdc : d.coordsys with
  | none => simp [coordsys_check, hdc] at h
  | some c =>
    simp only [coordsys_check, hdc] at h
    by_cases hs : is_same_coordsys c cs = true
    · simp [hs] at h
    · simp [hs] at h
      exact h.symm

theorem coordsys_check_of_mismatch (cs : Coordsys) (d : DArray) (c : Coordsys)
    (hdc : d.coordsys = some c) (hne : is_same_coordsys c cs = false) :
    coordsys_check (some cs) d = some (.coordinateSystemMismatch mismatch_msg) := by
  simp [coordsys_check, hdc, hne]

theorem prepare_run_mismatch (c32 : Rat → Rat) (cs : Coordsys) :
    ∀ ds : List DArray,
      (∃ d ∈ ds, ∃ c, d.coordsys = some c ∧ is_same_coordsys c cs = false) →
      (prepare_run c32 (some cs) ds).2
        = some (.coordinateSystemMismatch mismatch_msg) := by
  intro ds
  induction ds with
  | nil => intro h; simp at h
  | cons d ds ih =>
    intro h
    cases hc : coordsys_check (some cs) d with
    | some e =>
      rw [coordsys_check_some cs d e hc] at hc
      simp [prepare_run, hc]
    | none =>
      simp only [prepare_run, hc]
      rcases h with ⟨x, hx, c, hxc, hne⟩
      rcases List.mem_cons.mp hx with hx | hx
      · subst hx
        simp [coordsys_check, hxc, hne] at hc
      · exact ih ⟨x, hx, c, hxc, hne⟩

theorem prepare_darrays_ok_iff (c32 : Rat → Rat) (t : Option Coordsys)
    (ds out : List DArray) :
    prepare_darrays c32 ds t = .ok out ↔ prepare_run c32 t ds = (out, none) := by
  unfold prepare_darrays
  rcases hr : prepare_run c32 t ds with ⟨l, e⟩
  cases e <;> simp

theorem map_fix {α : Type} (f : α → α) :
    ∀ l : List α, (∀ x ∈ l, f x = x) → l.map f = l := by
  intro l
  induction l with
  | nil => intro _; rfl
  | cons a l ih =>
    intro h
    rw [List.map_cons, h a (List.mem_cons_self a l),
      ih (fun x hx => h x (List.mem_cons_of_mem a hx))]

/-- Helper: a successfully prepared list prepares again to itself. -/
theorem prepare_darrays_idem (c32 : Rat → Rat) (t : Option Coordsys)
    (ds out : List DArray) (h : prepare_darrays c32 ds t = .ok out) :
    prepare_darrays c32 out t = .ok out := by
  rw [prepare_darrays_ok_iff] at h ⊢
  obtain ⟨ho, _⟩ := prepare_run_ok c32 t ds out h
  have hpass : ∀ x ∈ out, coordsys_check t x = none := by
    intro x hx
    rw [ho] at hx
    rcases List.mem_map.mp hx with ⟨d, _, hd⟩
    rw [← hd]
    exact coordsys_check_prep_elem c32 t d
  have hfix : out.map (prep_elem c32 t) = out := by
    refine map_fix (prep_elem c32 t) out (fun x hx => ?_)
    rw [ho] at hx
    rcases List.mem_map.mp hx with ⟨d, _, hd⟩
    rw [← hd, prep_elem_idem]
  rw [prepare_run_all_pass c32 t out hpass, hfix]

/-- C1: if some element of the input carries a non-null coordsys that differs
    from the target (by dataspace, xformspace or transform matrix, exact
    equality), then `prepare_darrays` fails with the coordinate-system
    mismatch error (the `ValueError` it raises); the result is the error — no
    reconciled output is produced. -/
theorem C1_mismatch_fails (c32 : Rat → Rat) (ds : List DArray) (cs : Coordsys)
    (h : ∃ d ∈ ds, ∃ c, d.coordsys = some c ∧ is_same_coordsys c cs = false) :
    prepare_darrays c32 ds (some cs)
      = .error (.coordinateSystemMismatch mismatch_msg) := by
  have hs := prepare_run_mismatch c32 cs ds h
  unfold prepare_darrays
  rcases hr : prepare_run c32 (some cs) ds with ⟨l, e⟩
  rw [hr] at hs
  simp only at hs
  rw [hs]

/-- Example coordinate systems and arrays used by the witnesses. -/
def csA : Coordsys := { dataspace := 1, xformspace := 3, xform := [[1, 0], [0, 1]] }

def csB : Coordsys := { dataspace := 2, xformspace := 3, xform := [[1, 0], [0, 1]] }

def dMis : DArray :=
  { data := { dtype := DType.float64, vals := [2] }, datatype := 0, intent := 0,
    coordsys := some csB }

def dNone : DArray :=
  { data := { dtype := DType.int32, vals := [3] }, datatype := 0, intent := 0,
    coordsys := none }

theorem C1_witness :
    (∃ d ∈ [dNone, dMis], ∃ c, d.coordsys = some c ∧ is_same_coordsys c csA = false) ∧
    prepare_darrays id [dNone, dMis] (some csA)
      = .error (.coordinateSystemMismatch mismatch_msg) :=
  ⟨⟨dMis, by decide, csB, by decide, by decide⟩,
    C1_mismatch_fails id [dNone, dMis] csA
      ⟨dMis, by decide, csB, by decide, by decide⟩⟩

/-- C6: on success, every element of the result has dtype float32, datatype
    tag 16 (float32 code), intent tag 1008 (pointset code), and coordsys equal
    to the target — in particular elements whose coordsys was `None` end up
    with exactly the target coordsys. The length is preserved. -/
theorem C6_normalized_fields (c32 : Rat → Rat) (ds : List DArray) (cs : Coordsys)
    (out : List DArray) (h : prepare_darrays c32 ds (some cs) = .ok out) :
    out.length = ds.length ∧
    ∀ d ∈ out, d.data.dtype = DType.float32 ∧ d.datatype = NIFTI_TYPE_FLOAT32 ∧
      d.intent = NIFTI_INTENT_POINTSET ∧ d.coordsys = some cs := by
  rw [prepare_darrays_ok_iff] at h
  obtain ⟨ho, _⟩ := prepare_run_ok c32 (some cs) ds out h
  subst ho
  refine ⟨List.length_map ds _, fun d hd => ?_⟩
  rcases List.mem_map.mp hd with ⟨x, _, hx⟩
  subst hx
  exact ⟨rfl, rfl, rfl, rfl⟩

def outW : List DArray :=
  [{ data := { dtype := DType.float32, vals := [3] }, datatype := 16, intent := 1008,
     coordsys := some csA }]

theorem C6_witness :
    prepare_darrays id [dNone] (some csA) = .ok outW ∧
    (outW.length = [dNone].length ∧
     ∀ d ∈ outW, d.data.dtype = DType.float32 ∧ d.datatype = NIFTI_TYPE_FLOAT32 ∧
       d.intent = NIFTI_INTENT_POINTSET ∧ d.coordsys = some csA) :=
  ⟨rfl, C6_normalized_fields id [dNone] csA outW rfl⟩

/-- C7: normalization is idempotent — if `prepare_darrays` succeeds, running it
    again with the same target on its own output returns that output unchanged
    (same data, dtype, intent, datatype and coordsys on every element). -/
theorem C7_idempotent (c32 : Rat → Rat) (ds : List DArray) (t : Option Coordsys)
    (out : List DArray) (h : prepare_darrays c32 ds t = .ok out) :
    prepare_darrays c32 out t = .ok out :=
  prepare_darrays_idem c32 t ds out h

theorem C7_witness :
    prepare_darrays id [dNone] (some csA) = .ok outW ∧
    prepare_darrays id outW (some csA) = .ok outW :=
  ⟨rfl, C7_idempotent id [dNone] (some csA) outW rfl⟩

theorem prepare_run_stops (c32 : Rat → Rat) (cs : Coordsys) (d : DArray)
    (post : List DArray)
    (hmis : ∃ c, d.coordsys = some c ∧ is_same_coordsys c cs = false) :
    ∀ pre : List DArray, (∀ e ∈ pre, coordsys_check (some cs) e = none) →
      prepare_run c32 (some cs) (pre ++ d :: post)
        = (pre.map (prep_elem c32 (some cs)) ++ coerce_fields c32 d :: post,
           some (.coordinateSystemMismatch mismatch_msg)) := by
  intro pre
  induction pre with
  | nil =>
    intro _
    rcases hmis with ⟨c, hdc, hne⟩
    simp [prepare_run, coordsys_check_of_mismatch cs d c hdc hne]
  | cons e pre ih =>
    intro h
    have he : coordsys_check (some cs) e = none := h e (List.mem_cons_self e pre)
    have ihh := ih (fun x hx => h x (List.mem_cons_of_mem e hx))
    simp only [List.cons_append, prepare_run, he, List.map_cons, List.append_eq, ihh]

/-- C10: normalization is not atomic on error. When the first mismatching
    element sits at position `k > 0` (`pre` nonempty, all of `pre` passing the
    check), then at the moment the error is raised every element of `pre` has
    been fully processed in place (dtype coerced, tags set, coordsys
    overwritten with the target — `prep_elem`), the failing element has had
    its `data`, `datatype` and `intent` assigned (`coerce_fields`) while its
    `coordsys` is untouched, later elements are unchanged, and
    `prepare_darrays` raises the mismatch error. -/
theorem C10_partial_mutation (c32 : Rat → Rat) (cs : Coordsys)
    (pre post : List DArray) (d : DArray)
    (_hpre : pre ≠ [])
    (hpass : ∀ e ∈ pre, coordsys_check (some cs) e = none)
    (hmis : ∃ c, d.coordsys = some c ∧ is_same_coordsys c cs = false) :
    prepare_run c32 (some cs) (pre ++ d :: post)
      = (pre.map (prep_elem c32 (some cs)) ++ coerce_fields c32 d :: post,
         some (.coordinateSystemMismatch mismatch_msg)) ∧
    (coerce_fields c32 d).coordsys = d.coordsys ∧
    prepare_darrays c32 (pre ++ d :: post) (some cs)
      = .error (.coordinateSystemMismatch mismatch_msg) := by
  have hrun := prepare_run_stops c32 cs d post hmis pre hpass
  refine ⟨hrun, rfl, ?_⟩
  unfold prepare_darrays
  rw [hrun]

theorem C10_witness :
    (([dNone] : List DArray) ≠ [] ∧
     (∀ e ∈ [dNone], coordsys_check (some csA) e = none) ∧
     (∃ c, dMis.coordsys = some c ∧ is_same_coordsys c csA = false)) ∧
    (prepare_run id (some csA) ([dNone] ++ dMis :: [])
       = ([dNone].map (prep_elem id (some csA)) ++ coerce_fields id dMis :: [],
          some (.coordinateSystemMismatch mismatch_msg)) ∧
     (coerce_fields id dMis).coordsys = dMis.coordsys ∧
     prepare_darrays id ([dNone] ++ dMis :: []) (some csA)
       = .error (.coordinateSystemMismatch mismatch_msg)) :=
  ⟨⟨by decide, by decide, ⟨csB, by decide, by decide⟩⟩,
    C10_partial_mutation id csA [dNone] [] dMis (by decide) (by decide)
      ⟨csB, by decide, by decide⟩⟩

/-- A file path, as built by `Path(dir_name) / name` in the source: a directory
    and a file name (every file in the pipeline sits directly in one
    directory). -/
structure FPath where
  dir : String
  fname : String
deriving DecidableEq, Repr

/-- Rendered path string, as interpolated into command lines. -/
def FPath.render (p : FPath) : String := p.dir ++ "/" ++ p.fname

/-- The files on disk: a list of (path, image) pairs; a write prepends, a read
    takes the most recent entry. -/
abbrev FS : Type := List (FPath × GiftiImage)

/-- Model of `image.to_filename(path)`. -/
def fsWrite (p : FPath) (img : GiftiImage) (fs : FS) : FS := (p, img) :: fs

/-- Model of `nib.load(path)`: `some` of the most recently written image at
    the path, or `none` when no such file exists (in Python, `nib.load`
    raises `FileNotFoundError`). -/
def fsRead (p : FPath) : FS → Option GiftiImage
  | [] => none
  | pr :: rest => if pr.1 = p then some pr.2 else fsRead p rest

/-- Teardown of `TemporaryDirectory`: every file in the directory is deleted. -/
def removeTree (dir : String) (fs : FS) : FS :=
  List.filter (fun pr => pr.1.dir != dir) fs

/-- Observable side effects of one operation: file writes and external
    (`os.system`) invocations, in order. -/
inductive Event
  | writeFile (p : FPath) (img : GiftiImage)
  | invoke (cmd : String)
deriving DecidableEq, Repr

/-- Recognizer for invocation events. -/
def Event.isInvoke : Event → Bool
  | .invoke _ => true
  | _ => false

/-- Result of one operation: the returned value or raised error, the final
    files on disk, and the event trace. -/
structure Outcome (α : Type) where
  result : Except PipelineError α
  fs : FS
  trace : List Event

/-- Behaviour of the external `msm` registration binary on this call: its exit
    status and the two outputs it writes under `output_dir` on success. -/
structure MsmWorld where
  exitCode : Nat
  outMesh : GiftiImage
  outFunc : GiftiImage
deriving DecidableEq, Repr

/-- Behaviour of the external `msmresample` binary on this call: its exit
    status and the output file it writes, if any. -/
structure ResampleWorld where
  exitCode : Nat
  output : Option GiftiImage
deriving DecidableEq, Repr

/-- The fitted alignment (`self` after `MSMModel.fit`): the loaded outputs, the
    durable path of the transformed mesh, the original mesh path, and the
    coordsys captured from the mesh at fit time. -/
structure FittedState where
  transformed_mesh : GiftiImage
  transformed_func : GiftiImage
  transformed_mesh_path : FPath
  mesh_path : String
  coordsys : Option Coordsys
deriving DecidableEq, Repr

/-- Modelled from the spec: `run_msm` (imported from `msm.run` / `run_msm`,
    whose module is not under `src/`). Per spec sections 4.3 and 6 it builds a
    single `<tool>/bin/msm --in1=<source> --in2=<ref> --out=<output_dir>`-style
    command line (exact flags are tool-specific), executes it once, raises an
    `ExternalToolFailure` carrying the exact command string on a nonzero exit
    (no retry), and on success writes `transformed_in_mesh.surf.gii` and
    `transformed_and_reprojected.func.gii` under `output_dir` (durable
    outputs, not cleaned up) and returns the loaded results. -/
def msm_cmd (fslPath : String) (in_data_list : List String) (in_mesh : String)
    (ref_data_list : List String) (output_dir : String) (debug verbose : Bool) :
    String :=
  String.intercalate " "
    ([fslPath ++ "/bin/msm",
      "--inmesh=" ++ in_mesh,
      "--indata=" ++ String.intercalate "," in_data_list,
      "--refdata=" ++ String.intercalate "," ref_data_list,
      "--out=" ++ output_dir ++ "/"]
      ++ (if verbose then ["--verbose"] else [])
      ++ (if debug then ["--debug"] else []))

def run_msm (fslPath : String) (in_data_list : List String) (in_mesh : String)
    (ref_data_list : List String) (output_dir : String) (debug verbose : Bool)
    (w : MsmWorld) (fs : FS) : Outcome (GiftiImage × GiftiImage) :=
  let cmd := msm_cmd fslPath in_data_list in_mesh ref_data_list output_dir
    debug verbose
  let res : Except PipelineError (GiftiImage × GiftiImage) :=
    if w.exitCode ≠ 0 then
      .error (.externalToolFailure ("Failed to run MSM with command:\n" ++ cmd))
    else .ok (w.outMesh, w.outFunc)
  let fs' : FS :=
    if w.exitCode ≠ 0 then fs
    else
      fsWrite { dir := output_dir, fname := "transformed_and_reprojected.func.gii" }
        w.outFunc
        (fsWrite { dir := output_dir, fname := "transformed_in_mesh.surf.gii" }
          w.outMesh fs)
  { result := res, fs := fs', trace := [Event.invoke cmd] }

/-- The `GiftiDataArray` built by `MSMModel.fit` for one contrast: the raw
    data (fit applies no astype), float32/pointset tags, and the mesh's
    coordsys. -/
def mkContrastDArray (contrast : NDArray) (cs : Option Coordsys) : DArray :=
  { data := contrast, datatype := NIFTI_TYPE_FLOAT32,
    intent := NIFTI_INTENT_POINTSET, coordsys := cs }

/-- Source: `MSMModel.fit` in `src/msm/model.py`. Inside a
    `TemporaryDirectory(dir=output_dir)` (modelled by the fresh directory name
    `tmp`, torn down on every exit path), it reads the mesh's first darray's
    coordsys, materializes each source and target contrast as
    `source_i.func.gii` / `target_i.func.gii` with that coordsys, runs
    `run_msm`, and on success stores the fitted state. `source_data` and
    `target_data` are the raw per-contrast arrays (`ndarray` rows); fit never
    validates any coordinate system. -/
def MSMModel.fit (fslPath tmp : String) (source_data target_data : List NDArray)
    (mesh_file : String) (meshImg : GiftiImage) (output_dir : String)
    (debug verbose : Bool) (w : MsmWorld) (fs : FS) : Outcome FittedState :=
  match meshImg.darrays.head? with
  | none => { result := .error .indexError, fs := removeTree tmp fs, trace := [] }
  | some d0 =>
    let cs := d0.coordsys
    let sourceFiles := source_data.enum.map fun pr =>
      ((⟨tmp, "source_" ++ toString pr.1 ++ ".func.gii"⟩ : FPath),
        GiftiImage.mk [mkContrastDArray pr.2 cs])
    let targetFiles := target_data.enum.map fun pr =>
      ((⟨tmp, "target_" ++ toString pr.1 ++ ".func.gii"⟩ : FPath),
        GiftiImage.mk [mkContrastDArray pr.2 cs])
    let files := sourceFiles ++ targetFiles
    let fs1 := files.foldl (fun a pr => fsWrite pr.1 pr.2 a) fs
    let ev1 := files.map fun pr => Event.writeFile pr.1 pr.2
    let o := run_msm fslPath (sourceFiles.map fun pr => pr.1.render) mesh_file
      (targetFiles.map fun pr => pr.1.render) output_dir debug verbose w fs1
    let res : Except PipelineError FittedState :=
      match o.result with
      | .error e => .error e
      | .ok tmtf =>
        .ok { transformed_mesh := tmtf.1, transformed_func := tmtf.2,
              transformed_mesh_path := ⟨output_dir, "transformed_in_mesh.surf.gii"⟩,
              mesh_path := mesh_file, coordsys := cs }
    { result := res, fs := removeTree tmp o.fs, trace := ev1 ++ o.trace }

/-- A caller-side contrast record for the fit scenario of the spec: the
    numeric data together with the coordinate system the caller's surface
    data array carries. `MSMModel.fit` (see the source) consumes only the
    numeric content of each supplied contrast; this wrapper makes the
    spec's scenario "reference arrays carry coordsys C' ≠ C" expressible. -/
structure SuppliedArray where
  data : NDArray
  coordsys : Option Coordsys
deriving DecidableEq, Repr

/-- `MSMModel.fit` as called on caller-side arrays that carry a coordsys:
    per the source, only the numeric data reaches fit's materialization. -/
def MSMModel.fit_supplied (fslPath tmp : String)
    (source_data target_data : List SuppliedArray)
    (mesh_file : String) (meshImg : GiftiImage) (output_dir : String)
    (debug verbose : Bool) (w : MsmWorld) (fs : FS) : Outcome FittedState :=
  MSMModel.fit fslPath tmp (source_data.map (fun a => a.data))
    (target_data.map (fun a => a.data)) mesh_file meshImg output_dir
    debug verbose w fs

/-- The `msmresample` command line exactly as `MSMModel.transform` joins it
    (including the trailing spaces inside the joined pieces). -/
def resample_cmd (fslPath tmp : String) (st : FittedState) : String :=
  String.intercalate " "
    [fslPath ++ "/bin/msmresample",
     st.transformed_mesh_path.render ++ " ",
     tmp ++ "/transformed_contrast",
     "-labels " ++ (FPath.render ⟨tmp, "input_test.func.gii"⟩) ++ " ",
     "-project " ++ st.mesh_path]

/-- Source: `MSMModel.transform` in `src/msm/model.py`. Normalizes the loaded
    source image's darrays against the fitted coordsys, extends the list with
    the (re-normalized) list itself — the single-feature duplication
    workaround — then, inside a scoped `TemporaryDirectory` `tmp`, writes
    `input_test.func.gii`, invokes `msmresample`, raises on a nonzero exit
    with the command in the message, loads `transformed_contrast.func.gii`
    and returns its first darray's data. The two normalization errors are
    raised before the temporary directory is created. -/
def MSMModel.transform (c32 : Rat → Rat) (fslPath tmp : String)
    (st : FittedState) (w : ResampleWorld) (data_input : GiftiImage)
    (fs : FS) : Outcome NDArray :=
  match prepare_darrays c32 data_input.darrays st.coordsys with
  | .error e => { result := .error e, fs := fs, trace := [] }
  | .ok ds1 =>
    match prepare_darrays c32 ds1 st.coordsys with
    | .error e => { result := .error e, fs := fs, trace := [] }
    | .ok ds2 =>
      let darrays2 := ds2 ++ ds2
      let srcP : FPath := ⟨tmp, "input_test.func.gii"⟩
      let img := GiftiImage.mk darrays2
      let fs1 := fsWrite srcP img fs
      let cmd := resample_cmd fslPath tmp st
      let outP : FPath := ⟨tmp, "transformed_contrast.func.gii"⟩
      let fs2 := match w.output with
        | some o => fsWrite outP o fs1
        | none => fs1
      let res : Except PipelineError NDArray :=
        if w.exitCode ≠ 0 then
          .error (.externalToolFailure ("Failed to run MSM with command:\n" ++ cmd))
        else
          match fsRead outP fs2 with
          | none => .error (.outputNotFound outP.render)
          | some outImg =>
            match outImg.darrays.head? with
            | none => .error .indexError
            | some d => .ok d.data
      { result := res, fs := removeTree tmp fs2,
        trace := [Event.writeFile srcP img, Event.invoke cmd] }

/-- Sum of a list of rationals. -/
def listSum (l : List Rat) : Rat := l.foldl (· + ·) 0

/-- Arithmetic mean of a list of rationals. -/
def listMean (l : List Rat) : Rat := listSum l / (l.length : Rat)

/-- Coefficient of determination for one output column, as sklearn computes
    it: `1 - sum((yt - yp)^2) / sum((yt - mean yt)^2)`, with a zero
    denominator giving 1 when the numerator is zero and 0 otherwise. -/
def r2_single (yt yp : List Rat) : Rat :=
  let num := listSum ((List.zip yt yp).map fun pr => (pr.1 - pr.2) ^ 2)
  let m := listMean yt
  let den := listSum (yt.map fun y => (y - m) ^ 2)
  if den = 0 then (if num = 0 then 1 else 0) else 1 - num / den

/-- Model of `sklearn.metrics.r2_score` with the default uniform average over
    output columns (rows are samples, columns are outputs). -/
def r2_score (y_true y_pred : List (List Rat)) : Rat :=
  listMean ((List.zip y_true.transpose y_pred.transpose).map
    fun pr => r2_single pr.1 pr.2)

/-- sklearn's handling of a 1-D `y_true`: a 1-D numpy array is unchanged by
    `.T` and is reshaped by sklearn into a single-output column matrix. -/
def colMat (v : List Rat) : List (List Rat) := v.map fun x => [x]

/-- Source: `MSMModel.score` in `src/msm/model.py`: runs `transform` on the
    source, then returns
    `r2_score(transformed_data.T, target_data.T)` — the transformed output
    (1-D, unchanged by `.T`, treated by sklearn as a column) against the
    transposed target. -/
def MSMModel.score (c32 : Rat → Rat) (fslPath tmp : String)
    (st : FittedState) (w : ResampleWorld) (data_input : GiftiImage)
    (target_data : List (List Rat)) (fs : FS) : Outcome Rat :=
  let o := MSMModel.transform c32 fslPath tmp st w data_input fs
  match o.result with
  | .error e => { result := .error e, fs := o.fs, trace := o.trace }
  | .ok arr =>
    { result := .ok (r2_score (colMat arr.vals) target_data.transpose),
      fs := o.fs, trace := o.trace }

theorem removeTree_clean (dir : String) (fs : FS) :
    ∀ pr ∈ removeTree dir fs, pr.1.dir ≠ dir := by
  intro pr hm
  have h := List.mem_filter.mp hm
  simpa [bne_iff_ne] using h.2

theorem mem_removeTree (dir : String) (fs : FS) (pr : FPath × GiftiImage)
    (h : pr ∈ fs) (hd : pr.1.dir ≠ dir) : pr ∈ removeTree dir fs :=
  List.mem_filter.mpr ⟨h, by simpa [bne_iff_ne] using hd⟩

theorem fsRead_none (p : FPath) :
    ∀ fs : FS, (∀ pr ∈ fs, pr.1 ≠ p) → fsRead p fs = none := by
  intro fs
  induction fs with
  | nil => intro _; rfl
  | cons pr rest ih =>
    intro h
    simp only [fsRead]
    rw [if_neg (h pr (List.mem_cons_self pr rest))]
    exact ih fun x hx => h x (List.mem_cons_of_mem pr hx)

theorem countP_isInvoke_writes (l : List (FPath × GiftiImage)) :
    (l.map fun pr => Event.writeFile pr.1 pr.2).countP Event.isInvoke = 0 := by
  induction l with
  | nil => rfl
  | cons a l ih => simp [List.countP_cons, Event.isInvoke, ih]

/-- C9: `score` returns exactly `r2_score` of the (1-D, hence unchanged by
    `.T` and reshaped to a column by sklearn) `transform` output against the
    transposed target — the statistic per vertex across samples — and its
    side effects (final files and event trace) are exactly those of
    `transform`. -/
theorem C9_score_composition (c32 : Rat → Rat) (fslPath tmp : String)
    (st : FittedState) (w : ResampleWorld) (data_input : GiftiImage)
    (target_data : List (List Rat)) (fs : FS) :
    (MSMModel.score c32 fslPath tmp st w data_input target_data fs).result
      = (MSMModel.transform c32 fslPath tmp st w data_input fs).result.map
          (fun arr => r2_score (colMat arr.vals) target_data.transpose) ∧
    (MSMModel.score c32 fslPath tmp st w data_input target_data fs).fs
      = (MSMModel.transform c32 fslPath tmp st w data_input fs).fs ∧
    (MSMModel.score c32 fslPath tmp st w data_input target_data fs).trace
      = (MSMModel.transform c32 fslPath tmp st w data_input fs).trace := by
  unfold MSMModel.score
  cases h : (MSMModel.transform c32 fslPath tmp st w data_input fs).result with
  | error e => simp [h, Except.map]
  | ok arr => simp [h, Except.map]

/-- C3: when the source image has a single contrast map (one data array `d`)
    and normalization succeeds, `transform` materializes, before invoking the
    binary, an input file containing exactly two data arrays that are equal
    (the duplicate-append workaround for the external tool). -/
theorem C3_single_feature_duplicated (c32 : Rat → Rat) (fslPath tmp : String)
    (st : FittedState) (w : ResampleWorld) (d : DArray) (out : List DArray)
    (fs : FS) (h : prepare_darrays c32 [d] st.coordsys = .ok out) :
    ∃ e, out = [e] ∧
      Event.writeFile ⟨tmp, "input_test.func.gii"⟩ (GiftiImage.mk [e, e])
        ∈ (MSMModel.transform c32 fslPath tmp st w (GiftiImage.mk [d]) fs).trace := by
  have hh := h
  rw [prepare_darrays_ok_iff] at hh
  obtain ⟨ho, _⟩ := prepare_run_ok c32 st.coordsys [d] out hh
  have h2 := prepare_darrays_idem c32 st.coordsys [d] out h
  refine ⟨prep_elem c32 st.coordsys d, by simpa using ho, ?_⟩
  subst ho
  unfold MSMModel.transform
  have hd : (GiftiImage.mk [d]).darrays = [d] := rfl
  rw [hd]
  simp only [h]
  simp only [h2]
  simp

/-- C4: a nonzero exit status from an external binary raises the
    external-tool failure (the `RuntimeError`) whose message is the fixed
    prefix followed by the full invoked command string, and the trace holds
    exactly one invocation (no retry). First part: the `msmresample`
    invocation in `MSMModel.transform` (embedded from the source). Second
    part: the registration binary in `run_msm` (modelled from the spec). -/
theorem C4_nonzero_exit :
    (∀ (c32 : Rat → Rat) (fslPath tmp : String) (st : FittedState)
        (w : ResampleWorld) (img : GiftiImage) (fs : FS) (ds1 : List DArray),
      prepare_darrays c32 img.darrays st.coordsys = .ok ds1 → w.exitCode ≠ 0 →
      ∃ cmd,
        (MSMModel.transform c32 fslPath tmp st w img fs).result
          = .error (.externalToolFailure
              ("Failed to run MSM with command:\n" ++ cmd)) ∧
        Event.invoke cmd ∈ (MSMModel.transform c32 fslPath tmp st w img fs).trace ∧
        (MSMModel.transform c32 fslPath tmp st w img fs).trace.countP
          Event.isInvoke = 1) ∧
    (∀ (fslPath in_mesh output_dir : String) (ind refd : List String)
        (dbg vrb : Bool) (w : MsmWorld) (fs : FS),
      w.exitCode ≠ 0 →
      ∃ cmd,
        (run_msm fslPath ind in_mesh refd output_dir dbg vrb w fs).result
          = .error (.externalToolFailure
              ("Failed to run MSM with command:\n" ++ cmd)) ∧
        Event.invoke cmd ∈ (run_msm fslPath ind in_mesh refd output_dir dbg vrb w fs).trace ∧
        (run_msm fslPath ind in_mesh refd output_dir dbg vrb w fs).trace.countP
          Event.isInvoke = 1) := by
  constructor
  · intro c32 fslPath tmp st w img fs ds1 h hw
    have h2 := prepare_darrays_idem c32 st.coordsys img.darrays ds1 h
    refine ⟨resample_cmd fslPath tmp st, ?_, ?_, ?_⟩
    · unfold MSMModel.transform
      simp only [h]
      simp only [h2]
      simp [hw]
    · unfold MSMModel.transform
      simp only [h]
      simp only [h2]
      simp
    · unfold MSMModel.transform
      simp only [h]
      simp only [h2]
      simp [List.countP_cons, Event.isInvoke]
  · intro fslPath in_mesh output_dir ind refd dbg vrb w fs hw
    refine ⟨msm_cmd fslPath ind in_mesh refd output_dir dbg vrb, ?_, ?_, ?_⟩
    · unfold run_msm
      simp [hw]
    · unfold run_msm
      simp
    · unfold run_msm
      simp [List.countP_cons, Event.isInvoke]

/-- Concrete fitted state, worlds and images used by the witnesses. -/
def stEx : FittedState :=
  { transformed_mesh := ⟨[]⟩, transformed_func := ⟨[]⟩,
    transformed_mesh_path := ⟨"out", "transformed_in_mesh.surf.gii"⟩,
    mesh_path := "mesh.surf.gii", coordsys := some csA }

def imgEx : GiftiImage := ⟨[dNone]⟩

def wBad : ResampleWorld := { exitCode := 1, output := none }

def wMsmBad : MsmWorld := { exitCode := 1, outMesh := ⟨[]⟩, outFunc := ⟨[]⟩ }

theorem C4_witness :
    ((1 : Nat) ≠ 0 ∧
     ∃ cmd,
       (MSMModel.transform id "fsl" "t" stEx wBad imgEx []).result
         = .error (.externalToolFailure
             ("Failed to run MSM with command:\n" ++ cmd)) ∧
       Event.invoke cmd ∈ (MSMModel.transform id "fsl" "t" stEx wBad imgEx []).trace ∧
       (MSMModel.transform id "fsl" "t" stEx wBad imgEx []).trace.countP
         Event.isInvoke = 1) ∧
    ∃ cmd,
      (run_msm "fsl" [] "mesh.surf.gii" [] "out" false false wMsmBad []).result
        = .error (.externalToolFailure
            ("Failed to run MSM with command:\n" ++ cmd)) ∧
      Event.invoke cmd ∈ (run_msm "fsl" [] "mesh.surf.gii" [] "out" false false wMsmBad []).trace ∧
      (run_msm "fsl" [] "mesh.surf.gii" [] "out" false false wMsmBad []).trace.countP
        Event.isInvoke = 1 :=
  ⟨⟨by decide, C4_nonzero_exit.1 id "fsl" "t" stEx wBad imgEx [] outW rfl (by decide)⟩,
   C4_nonzero_exit.2 "fsl" "mesh.surf.gii" "out" [] [] false false wMsmBad [] (by decide)⟩

/-- C5: when the resampling binary exits with status zero but has not written
    the declared output file, `transform` fails with the output-not-found
    error (the loader's `FileNotFoundError`), which is a different error from
    the external-tool failure — the run is not treated as a success. -/
theorem C5_missing_output (c32 : Rat → Rat) (fslPath tmp : String)
    (st : FittedState) (w : ResampleWorld) (img : GiftiImage) (fs : FS)
    (ds1 : List DArray)
    (h : prepare_darrays c32 img.darrays st.coordsys = .ok ds1)
    (hz : w.exitCode = 0) (hout : w.output = none)
    (hclean : ∀ pr ∈ fs, pr.1.dir ≠ tmp) :
    (MSMModel.transform c32 fslPath tmp st w img fs).result
      = .error (.outputNotFound
          (FPath.render ⟨tmp, "transformed_contrast.func.gii"⟩)) ∧
    ∀ m, (MSMModel.transform c32 fslPath tmp st w img fs).result
      ≠ .error (.externalToolFailure m) := by
  have h2 := prepare_darrays_idem c32 st.coordsys img.darrays ds1 h
  have hne : (⟨tmp, "input_test.func.gii"⟩ : FPath)
      ≠ ⟨tmp, "transformed_contrast.func.gii"⟩ := by
    intro hcontra
    have hf : "input_test.func.gii" = "transformed_contrast.func.gii" :=
      congrArg FPath.fname hcontra
    exact absurd hf (by decide)
  have hrd : ∀ imgX : GiftiImage,
      fsRead (⟨tmp, "transformed_contrast.func.gii"⟩ : FPath)
        (fsWrite ⟨tmp, "input_test.func.gii"⟩ imgX fs) = none := by
    intro imgX
    simp only [fsWrite, fsRead]
    rw [if_neg hne]
    refine fsRead_none _ fs fun pr hpr hEq => ?_
    exact absurd (congrArg FPath.dir hEq) (hclean pr hpr)
  have hres : (MSMModel.transform c32 fslPath tmp st w img fs).result
      = .error (.outputNotFound
          (FPath.render ⟨tmp, "transformed_contrast.func.gii"⟩)) := by
    unfold MSMModel.transform
    simp only [h]
    simp only [h2]
    simp [hz, hout, hrd]
  refine ⟨hres, fun m hcontra => ?_⟩
  rw [hres] at hcontra
  simp at hcontra

def wMissing : ResampleWorld := { exitCode := 0, output := none }

theorem C5_witness :
    (prepare_darrays id imgEx.darrays stEx.coordsys = .ok outW ∧
     wMissing.exitCode = 0 ∧ wMissing.output = none) ∧
    ((MSMModel.transform id "fsl" "t" stEx wMissing imgEx []).result
       = .error (.outputNotFound
           (FPath.render ⟨"t", "transformed_contrast.func.gii"⟩)) ∧
     ∀ m, (MSMModel.transform id "fsl" "t" stEx wMissing imgEx []).result
       ≠ .error (.externalToolFailure m)) :=
  ⟨⟨rfl, rfl, rfl⟩,
   C5_missing_output id "fsl" "t" stEx wMissing imgEx [] outW rfl rfl rfl
     (by intro pr hpr; cases hpr)⟩

/-- C8: scoped temporary directories are gone after the operation on every
    exit path. Part one: after `transform` (normal return, either validation
    error — raised before the directory exists — or subprocess failure) no
    file in the temporary directory remains. Part two: the same for `fit`,
    unconditionally. Part three: the durable outputs `run_msm` writes under
    `output_dir` survive `fit`'s teardown on the success path. -/
theorem C8_tempdir_cleanup :
    (∀ (c32 : Rat → Rat) (fslPath tmp : String) (st : FittedState)
        (w : ResampleWorld) (img : GiftiImage) (fs : FS),
      (∀ pr ∈ fs, pr.1.dir ≠ tmp) →
      ∀ pr ∈ (MSMModel.transform c32 fslPath tmp st w img fs).fs, pr.1.dir ≠ tmp) ∧
    (∀ (fslPath tmp : String) (src tgt : List NDArray) (mesh_file : String)
        (meshImg : GiftiImage) (output_dir : String) (dbg vrb : Bool)
        (w : MsmWorld) (fs : FS),
      ∀ pr ∈ (MSMModel.fit fslPath tmp src tgt mesh_file meshImg output_dir
        dbg vrb w fs).fs, pr.1.dir ≠ tmp) ∧
    (∀ (fslPath tmp : String) (src tgt : List NDArray) (mesh_file : String)
        (meshImg : GiftiImage) (output_dir : String) (dbg vrb : Bool)
        (w : MsmWorld) (fs : FS),
      output_dir ≠ tmp → w.exitCode = 0 → meshImg.darrays ≠ [] →
      ((⟨output_dir, "transformed_in_mesh.surf.gii"⟩ : FPath), w.outMesh)
        ∈ (MSMModel.fit fslPath tmp src tgt mesh_file meshImg output_dir
            dbg vrb w fs).fs ∧
      ((⟨output_dir, "transformed_and_reprojected.func.gii"⟩ : FPath), w.outFunc)
        ∈ (MSMModel.fit fslPath tmp src tgt mesh_file meshImg output_dir
            dbg vrb w fs).fs) := by
  refine ⟨?_, ?_, ?_⟩
  · intro c32 fslPath tmp st w img fs hclean pr hm
    unfold MSMModel.transform at hm
    split at hm
    · exact hclean pr hm
    · split at hm
      · exact hclean pr hm
      · exact removeTree_clean tmp _ pr hm
  · intro fslPath tmp src tgt mesh_file meshImg output_dir dbg vrb w fs pr hm
    unfold MSMModel.fit at hm
    split at hm
    · exact removeTree_clean tmp _ pr hm
    · exact removeTree_clean tmp _ pr hm
  · intro fslPath tmp src tgt mesh_file meshImg output_dir dbg vrb w fs hod hz hne
    obtain ⟨d0, rest, hd⟩ : ∃ d0 rest, meshImg.darrays = d0 :: rest := by
      cases hm : meshImg.darrays with
      | nil => exact absurd hm hne
      | cons a l => exact ⟨a, l, rfl⟩
    unfold MSMModel.fit
    rw [hd]
    split
    · rename_i heq
      simp [List.head?] at heq
    · rename_i d0x heq
      unfold run_msm
      simp only [hz, ne_eq, not_true_eq_false, if_false, fsWrite]
      constructor
      · exact mem_removeTree tmp _ _
          (List.mem_cons_of_mem _ (List.mem_cons_self _ _)) hod
      · exact mem_removeTree tmp _ _ (List.mem_cons_self _ _) hod

def meshEx : GiftiImage :=
  ⟨[{ data := { dtype := DType.float32, vals := [] }, datatype := 16, intent := 1008,
      coordsys := some csA }]⟩

def wMsm0 : MsmWorld := { exitCode := 0, outMesh := ⟨[]⟩, outFunc := ⟨[]⟩ }

theorem C8_witness :
    ((∀ pr ∈ ([] : FS), pr.1.dir ≠ "t") ∧
     ∀ pr ∈ (MSMModel.transform id "fsl" "t" stEx wBad imgEx []).fs,
       pr.1.dir ≠ "t") ∧
    (∀ pr ∈ (MSMModel.fit "fsl" "t" [] [] "mesh.surf.gii" meshEx "out"
        false false wMsm0 []).fs, pr.1.dir ≠ "t") ∧
    (("out" : String) ≠ "t" ∧ wMsm0.exitCode = 0 ∧ meshEx.darrays ≠ [] ∧
     ((⟨"out", "transformed_in_mesh.surf.gii"⟩ : FPath), wMsm0.outMesh)
       ∈ (MSMModel.fit "fsl" "t" [] [] "mesh.surf.gii" meshEx "out"
           false false wMsm0 []).fs ∧
     ((⟨"out", "transformed_and_reprojected.func.gii"⟩ : FPath), wMsm0.outFunc)
       ∈ (MSMModel.fit "fsl" "t" [] [] "mesh.surf.gii" meshEx "out"
           false false wMsm0 []).fs) :=
  ⟨⟨fun pr hpr => (List.not_mem_nil pr hpr).elim,
    C8_tempdir_cleanup.1 id "fsl" "t" stEx wBad imgEx []
      fun pr hpr => (List.not_mem_nil pr hpr).elim⟩,
   C8_tempdir_cleanup.2.1 "fsl" "t" [] [] "mesh.surf.gii" meshEx "out"
     false false wMsm0 [],
   by
     have h := C8_tempdir_cleanup.2.2 "fsl" "t" [] [] "mesh.surf.gii" meshEx
       "out" false false wMsm0 [] (by decide) rfl (by decide)
     exact ⟨by decide, rfl, by decide, h.1, h.2⟩⟩

/-- Recognizer: did this call raise the coordinate-system mismatch error? -/
def raisedCoordsysMismatch {α : Type} : Except PipelineError α → Bool
  | .error e => e.isCoordsysMismatch
  | .ok _ => false

/-- C2 (amended): `MSMModel.fit` performs no coordinate-system validation on
    the supplied contrast data — it reads only the numeric content of each
    supplied array and attaches the mesh's own coordsys to every materialized
    array — so whatever coordsys the supplied reference arrays carry, fit
    never raises the coordinate-system mismatch error, and (for a mesh with
    at least one darray) the external registration binary is invoked exactly
    once. -/
theorem C2_fit_no_coordsys_validation (fslPath tmp : String)
    (source_data target_data : List SuppliedArray) (mesh_file : String)
    (meshImg : GiftiImage) (output_dir : String) (dbg vrb : Bool)
    (w : MsmWorld) (fs : FS) (hne : meshImg.darrays ≠ []) :
    (∀ msg, (MSMModel.fit_supplied fslPath tmp source_data target_data
        mesh_file meshImg output_dir dbg vrb w fs).result
      ≠ .error (.coordinateSystemMismatch msg)) ∧
    (MSMModel.fit_supplied fslPath tmp source_data target_data mesh_file
      meshImg output_dir dbg vrb w fs).trace.countP Event.isInvoke = 1 := by
  obtain ⟨d0, rest, hd⟩ : ∃ d0 rest, meshImg.darrays = d0 :: rest := by
    cases hm : meshImg.darrays with
    | nil => exact absurd hm hne
    | cons a l => exact ⟨a, l, rfl⟩
  unfold MSMModel.fit_supplied MSMModel.fit
  rw [hd]
  constructor
  · intro msg
    split
    · rename_i heq
      simp [List.head?] at heq
    · rename_i d0x heq
      unfold run_msm
      by_cases hw : w.exitCode = 0
      · simp [hw]
      · simp only [hw, ne_eq, not_false_eq_true, if_true, ite_true]
        simp
  · split
    · rename_i heq
      simp [List.head?] at heq
    · rename_i d0x heq
      unfold run_msm
      simp only [List.countP_append, countP_isInvoke_writes]
      simp [List.countP_cons, Event.isInvoke]

def srcSupplied : List SuppliedArray :=
  [{ data := { dtype := DType.float32, vals := [1] }, coordsys := some csA }]

def tgtSupplied : List SuppliedArray :=
  [{ data := { dtype := DType.float32, vals := [1] }, coordsys := some csB }]

/-- C2 counterexample: the mesh carries coordsys `csA` and the supplied
    reference arrays carry `csB ≠ csA`, yet `fit` raises no
    coordinate-system mismatch and the external subprocess is invoked (the
    claim asserts fit raises the mismatch before any subprocess runs). -/
theorem C2_counterexample :
    is_same_coordsys csB csA = false ∧
    raisedCoordsysMismatch (MSMModel.fit_supplied "fsl" "tmpd" srcSupplied
      tgtSupplied "mesh.surf.gii" meshEx "out" false false wMsm0 []).result
      = false ∧
    (MSMModel.fit_supplied "fsl" "tmpd" srcSupplied tgtSupplied
      "mesh.surf.gii" meshEx "out" false false wMsm0 []).trace.countP
      Event.isInvoke = 1 :=
  ⟨rfl, rfl, rfl⟩

theorem C2_witness :
    meshEx.darrays ≠ [] ∧
    (MSMModel.fit_supplied "fsl" "tmpd" srcSupplied tgtSupplied
        "mesh.surf.gii" meshEx "out" false false wMsm0 []).result
      ≠ .error (.coordinateSystemMismatch mismatch_msg) ∧
    (MSMModel.fit_supplied "fsl" "tmpd" srcSupplied tgtSupplied
      "mesh.surf.gii" meshEx "out" false false wMsm0 []).trace.countP
      Event.isInvoke = 1 :=
  ⟨by decide,
   (C2_fit_no_coordsys_validation "fsl" "tmpd" srcSupplied tgtSupplied
     "mesh.surf.gii" meshEx "out" false false wMsm0 [] (by decide)).1 mismatch_msg,
   (C2_fit_no_coordsys_validation "fsl" "tmpd" srcSupplied tgtSupplied
     "mesh.surf.gii" meshEx "out" false false wMsm0 [] (by decide)).2⟩

theorem C3_witness :
    prepare_darrays id [dNone] stEx.coordsys = .ok outW ∧
    ∃ e, outW = [e] ∧
      Event.writeFile ⟨"t", "input_test.func.gii"⟩ (GiftiImage.mk [e, e])
        ∈ (MSMModel.transform id "fsl" "t" stEx wBad
            (GiftiImage.mk [dNone]) []).trace :=
  ⟨rfl, C3_single_feature_duplicated id "fsl" "t" stEx wBad dNone outW [] rfl⟩
